import Mathlib

/-!
Shallow embedding of the yt-script transcript pipeline
(src/src/transcripts.js, src/src/error.js, src/src/api.js).

JavaScript objects used as string-keyed dictionaries are embedded as
insertion-ordered association lists (`List (String × α)`): property
assignment overwrites in place when the key exists and appends otherwise,
and property lookup returns the value of the first (unique) matching key.
JavaScript strings are Lean `String`s; `s.includes(pat)` and
`s.split(pat)` are embedded through the first-occurrence splitter
`splitFirst` over character lists. Fallible operations return
`Except TranscriptError α` in place of thrown errors.
-/

namespace YtScript

/-- JS property lookup `m[k]` on an object embedded as an association list:
`none` plays the role of `undefined`. -/
def jsLookup {α : Type} (m : List (String × α)) (k : String) : Option α :=
  (m.find? (fun p => p.1 == k)).map Prod.snd

/-- JS property assignment `m[k] = v`: overwrite in place when the key is
present, append otherwise (JS objects preserve insertion order). -/
def assign {α : Type} (m : List (String × α)) (k : String) (v : α) : List (String × α) :=
  if m.any (fun p => p.1 == k) then
    m.map (fun p => if p.1 == k then (k, v) else p)
  else
    m ++ [(k, v)]

/-- JS `s.startsWith(pat)`. -/
def jsStartsWith (s pat : String) : Bool :=
  pat.data.isPrefixOf s.data

/-- Split at the first occurrence of the (non-empty) pattern: `some (pre,
post)` when the pattern occurs, with `pre` the text before the first
occurrence and `post` the text after it; `none` when it does not occur.
This is the primitive behind both JS `s.split(pat)` (whose result has a
second segment exactly when the pattern occurs) and JS `s.includes(pat)`. -/
def splitFirst (pat : List Char) : List Char → Option (List Char × List Char)
  | [] => none
  | c :: rest =>
    if pat.isPrefixOf (c :: rest) then some ([], (c :: rest).drop pat.length)
    else
      match splitFirst pat rest with
      | some (pre, post) => some (c :: pre, post)
      | none => none

/-- JS `s.includes(pat)` for a non-empty pattern: the pattern occurs in `s`. -/
def includes (s pat : String) : Bool :=
  (splitFirst pat.data s.data).isSome

/-- The text before the first occurrence of the pattern, or the whole text
when the pattern does not occur: JS `s.split(pat)[0]`. -/
def beforeFirst (pat s : List Char) : List Char :=
  match splitFirst pat s with
  | some (pre, _) => pre
  | none => s

/-- JS template-literal interpolation of a possibly-`undefined` string value:
`undefined` prints as the literal text "undefined". -/
def interpolate (x : Option String) : String :=
  match x with
  | some s => s
  | none => "undefined"

/-- Error taxonomy of src/src/error.js: each constructor is one factory
function; `noTranscriptFound` records the extra diagnostic payload fields
(`_requestedLanguageCodes`, `_transcriptData`) set by `createNoTranscriptFound`,
with `transcriptData = none` embedding a missing (`undefined`) argument. -/
inductive TranscriptError where
  | invalidVideoId (videoId : String)
  | tooManyRequests (videoId : String)
  | videoUnavailable (videoId : String)
  | transcriptsDisabled (videoId : String)
  | noTranscriptAvailable (videoId : String)
  | notTranslatable (videoId : String)
  | translationLanguageNotAvailable (videoId : String)
  | noTranscriptFound (videoId : String) (requestedLanguageCodes : List String)
      (transcriptData : Option String)
  deriving Repr, DecidableEq

/-- The `cause` string each factory of src/src/error.js attaches to the error
(the diagnostic text interpolated into the final message). The
`noTranscriptFound` cause interpolates `transcriptData` exactly as the JS
template literal does, so an `undefined` argument prints as "undefined". -/
def causeOf : TranscriptError → String
  | .invalidVideoId _ =>
      "You provided an invalid video id. Make sure you are using the video id and NOT the url!\n\nDo NOT run: `YouTubeTranscriptApi.getTranscript(\"https://www.youtube.com/watch?v=1234\")`\nInstead run: `YouTubeTranscriptApi.getTranscript(\"1234\")`"
  | .tooManyRequests _ =>
      "YouTube is receiving too many requests from this IP and now requires solving a captcha to continue. One of the following things can be done to work around this:\n- Manually solve the captcha in a browser and export the cookie. Read here how to use that cookie with youtube-transcript-api: https://github.com/jdepoix/youtube-transcript-api#cookies\n- Use a different IP address\n- Wait until the ban on your IP has been lifted"
  | .videoUnavailable _ => "The video is no longer available"
  | .transcriptsDisabled _ => "Subtitles are disabled for this video"
  | .noTranscriptAvailable _ => "No transcripts are available for this video"
  | .notTranslatable _ => "The requested language is not translatable"
  | .translationLanguageNotAvailable _ => "The requested translation language is not available"
  | .noTranscriptFound _ requestedLanguageCodes transcriptData =>
      "No transcripts were found for any of the requested language codes: " ++
        String.intercalate ", " requestedLanguageCodes ++ "\n\n" ++
        interpolate transcriptData

/-- The literal marker `"captions":` the page is split on. -/
def captionsMarker : String := "\"captions\":"

/-- The CAPTCHA marker `class="g-recaptcha"` tested by `extractCaptionsJson`. -/
def captchaMarker : String := "class=\"g-recaptcha\""

/-- The playability marker `"playabilityStatus":` tested by
`extractCaptionsJson`. -/
def playabilityMarker : String := "\"playabilityStatus\":"

/-- `extractCaptionsJson` (src/src/transcripts.js lines 53-82) at the string
level: split the page on the captions marker; when no second segment exists,
classify the failure in the source's precedence order. When the split
succeeds, the source truncates the second segment at `,"videoDetails` and
feeds it to `JSON.parse`; the JSON decoding (and its `TranscriptsDisabled` /
`NoTranscriptAvailable` follow-up checks) is outside this string-level model,
so the success branch returns the carved raw segment. -/
def extractCaptionsJson (html videoId : String) : Except TranscriptError String :=
  match splitFirst captionsMarker.data html.data with
  | none =>
    if jsStartsWith videoId "http://" || jsStartsWith videoId "https://" then
      .error (.invalidVideoId videoId)
    else if includes html captchaMarker then
      .error (.tooManyRequests videoId)
    else if !(includes html playabilityMarker) then
      .error (.videoUnavailable videoId)
    else
      .error (.transcriptsDisabled videoId)
  | some (_, afterMarker) =>
    .ok (String.mk
      (beforeFirst ",\"videoDetails\"".data (beforeFirst captionsMarker.data afterMarker)))

/-- One entry of `captionsJson.translationLanguages` as found in the manifest
(`languageName.simpleText` flattened to a plain string field). -/
structure RawTranslationLanguage where
  languageNameSimpleText : String
  languageCode : String
  deriving Repr, DecidableEq

/-- One entry of `captionsJson.captionTracks`. `kind` is an optional string
(`some "asr"` marks an auto-generated track); `name.simpleText` is flattened
to a plain string field. -/
structure CaptionTrack where
  baseUrl : String
  nameSimpleText : String
  languageCode : String
  kind : Option String
  isTranslatable : Bool
  deriving Repr, DecidableEq

/-- The decoded caption manifest (`playerCaptionsTracklistRenderer`) consumed
by `buildTranscriptList`. -/
structure CaptionsJson where
  captionTracks : List CaptionTrack
  translationLanguages : List RawTranslationLanguage
  deriving Repr, DecidableEq

/-- The mapped translation-language descriptor built at the top of
`buildTranscriptList` (`{language, language_code}`). -/
structure TranslationLanguage where
  language : String
  language_code : String
  deriving Repr, DecidableEq

/-- The transcript handle object returned by `createTranscript`
(src/src/transcripts.js lines 152-198), without its `httpClient` and the
I/O-performing `fetch` closure (fetching is modelled separately by
`parseTranscript` applied to the fetched document). -/
structure Transcript where
  videoId : String
  url : String
  language : String
  languageCode : String
  isGenerated : Bool
  translationLanguages : List TranslationLanguage
  translationLanguagesDict : List (String × String)
  deriving Repr, DecidableEq

/-- The `reduce` at the top of `createTranscript` building
`translationLanguagesDict` from the translation-language list. -/
def buildTranslationLanguagesDict (translationLanguages : List TranslationLanguage) :
    List (String × String) :=
  translationLanguages.foldl (fun acc lang => assign acc lang.language_code lang.language) []

/-- `createTranscript` (src/src/transcripts.js lines 152-198): builds the
handle record, deriving `translationLanguagesDict` from the list. -/
def createTranscript (videoId url language languageCode : String) (isGenerated : Bool)
    (translationLanguages : List TranslationLanguage) : Transcript :=
  { videoId := videoId
    url := url
    language := language
    languageCode := languageCode
    isGenerated := isGenerated
    translationLanguages := translationLanguages
    translationLanguagesDict := buildTranslationLanguagesDict translationLanguages }

/-- The `isTranslatable` getter: the translation-language list is non-empty. -/
def Transcript.isTranslatable (t : Transcript) : Bool :=
  t.translationLanguages.length > 0

/-- JS truthiness of the string lookup `this.translationLanguagesDict[code]`:
falsy exactly when the key is absent (`undefined`) or its value is the empty
string. -/
def truthyLookup (m : List (String × String)) (k : String) : Bool :=
  match jsLookup m k with
  | none => false
  | some v => v != ""

/-- The `translate` method of the handle (src/src/transcripts.js lines
180-197): guard on `!this.isTranslatable`, then on the falsiness of
`this.translationLanguagesDict[languageCode]`, else build a fresh handle via
`createTranscript` with `&tlang=` appended to the url, the display name from
the dictionary, the generated flag set to `true` and an empty translation
list. -/
def Transcript.translate (t : Transcript) (languageCode : String) :
    Except TranscriptError Transcript :=
  if !t.isTranslatable then
    .error (.notTranslatable t.videoId)
  else if !(truthyLookup t.translationLanguagesDict languageCode) then
    .error (.translationLanguageNotAvailable t.videoId)
  else
    .ok (createTranscript t.videoId (t.url ++ "&tlang=" ++ languageCode)
      ((jsLookup t.translationLanguagesDict languageCode).getD "") languageCode true [])

/-- The transcript-list record returned by `buildTranscriptList`; the two
dictionaries are insertion-ordered association lists. -/
structure TranscriptList where
  videoId : String
  manuallyCreatedTranscripts : List (String × Transcript)
  generatedTranscripts : List (String × Transcript)
  translationLanguages : List TranslationLanguage
  deriving Repr, DecidableEq

/-- The body of the `forEach` in `buildTranscriptList`: route the track into
the generated dictionary when `caption.kind === 'asr'`, else into the
manually-created one, assigning under its language code. The accumulator
pairs (manuallyCreatedTranscripts, generatedTranscripts). -/
def addCaptionTrack (videoId : String) (translationLanguages : List TranslationLanguage)
    (maps : List (String × Transcript) × List (String × Transcript))
    (caption : CaptionTrack) :
    List (String × Transcript) × List (String × Transcript) :=
  let isAsr := caption.kind == some "asr"
  let t := createTranscript videoId caption.baseUrl caption.nameSimpleText
    caption.languageCode isAsr
    (if caption.isTranslatable then translationLanguages else [])
  if isAsr then (maps.1, assign maps.2 caption.languageCode t)
  else (assign maps.1 caption.languageCode t, maps.2)

/-- `buildTranscriptList` (src/src/transcripts.js lines 85-113): map the raw
translation languages, then fold every caption track into the two
dictionaries. -/
def buildTranscriptList (videoId : String) (captionsJson : CaptionsJson) : TranscriptList :=
  let translationLanguages := captionsJson.translationLanguages.map (fun lang =>
    { language := lang.languageNameSimpleText
      language_code := lang.languageCode : TranslationLanguage })
  let maps := captionsJson.captionTracks.foldl
    (addCaptionTrack videoId translationLanguages) ([], [])
  { videoId := videoId
    manuallyCreatedTranscripts := maps.1
    generatedTranscripts := maps.2
    translationLanguages := translationLanguages }

/-- The inner loop of `findTranscriptHelper`: check each candidate dictionary
in its fixed order for the given code, returning the first hit (handle values
are objects, hence always truthy). -/
def findInDicts (transcriptDicts : List (List (String × Transcript))) (code : String) :
    Option Transcript :=
  match transcriptDicts with
  | [] => none
  | dict :: rest =>
    match jsLookup dict code with
    | some t => some t
    | none => findInDicts rest code

/-- The outer loop of `findTranscriptHelper`: walk the preference list in
order, returning the first code's hit. -/
def findFirstMatch (languageCodes : List String)
    (transcriptDicts : List (List (String × Transcript))) : Option Transcript :=
  match languageCodes with
  | [] => none
  | code :: rest =>
    match findInDicts transcriptDicts code with
    | some t => some t
    | none => findFirstMatch rest transcriptDicts

/-- `findTranscriptHelper` (src/src/transcripts.js lines 132-141): the double
loop over preference list and candidate dictionaries; on no match it throws
`noTranscriptFound(videoId, languageCodes)` — the factory's third
`transcriptData` argument is not passed at this call site, embedded as
`none`. -/
def findTranscriptHelper (transcriptList : TranscriptList) (languageCodes : List String)
    (transcriptDicts : List (List (String × Transcript))) :
    Except TranscriptError Transcript :=
  match findFirstMatch languageCodes transcriptDicts with
  | some t => .ok t
  | none => .error (.noTranscriptFound transcriptList.videoId languageCodes none)

/-- `findTranscript`: search the manually-created dictionary, then the
generated one. -/
def findTranscript (transcriptList : TranscriptList) (languageCodes : List String) :
    Except TranscriptError Transcript :=
  findTranscriptHelper transcriptList languageCodes
    [transcriptList.manuallyCreatedTranscripts, transcriptList.generatedTranscripts]

/-- `findGeneratedTranscript`: search only the generated dictionary. -/
def findGeneratedTranscript (transcriptList : TranscriptList) (languageCodes : List String) :
    Except TranscriptError Transcript :=
  findTranscriptHelper transcriptList languageCodes [transcriptList.generatedTranscripts]

/-- `findManuallyCreatedTranscript`: search only the manually-created
dictionary. -/
def findManuallyCreatedTranscript (transcriptList : TranscriptList)
    (languageCodes : List String) : Except TranscriptError Transcript :=
  findTranscriptHelper transcriptList languageCodes
    [transcriptList.manuallyCreatedTranscripts]

/-- The parsed XML document tree handed to the cue parser: an element node
carries its tag name, attribute list and children; a text node carries its
character data. This embeds the DOM produced by `new DOMParser()
.parseFromString(plainData, 'text/xml')` of the xmldom library. -/
inductive XmlNode where
  | element (tagName : String) (attributes : List (String × String)) (children : List XmlNode)
  | textNode (content : String)
  deriving Repr

/-- DOM `textContent`: the concatenated character data of all descendant text
nodes, in document order (tags themselves contribute nothing). -/
def textContent : XmlNode → String
  | .textNode s => s
  | .element _ _ children => String.join (children.attach.map (fun c => textContent c.1))
decreasing_by
  simp only [XmlNode.element.sizeOf_spec]
  have h := List.sizeOf_lt_of_mem c.2
  omega

/-- All element nodes of the subtree rooted at a node (the node itself
included when it is a matching element), in document pre-order. -/
def collectElements (tagName : String) : XmlNode → List XmlNode
  | .textNode _ => []
  | .element tag attrs children =>
    (if tag == tagName then [XmlNode.element tag attrs children] else []) ++
      (children.attach.map (fun c => collectElements tagName c.1)).flatten
decreasing_by
  simp only [XmlNode.element.sizeOf_spec]
  have h := List.sizeOf_lt_of_mem c.2
  omega

/-- DOM `base.getElementsByTagName(tagName)` as implemented by xmldom: every
matching element node strictly below `base`, in document pre-order (the base
node itself is excluded by the `node !== base` guard of its visitor). -/
def getElementsByTagName (base : XmlNode) (tagName : String) : List XmlNode :=
  match base with
  | .textNode _ => []
  | .element _ _ children => (children.map (collectElements tagName)).flatten

/-- DOM `getAttribute`: `none` embeds the `null` returned for an absent
attribute. -/
def getAttribute (n : XmlNode) (name : String) : Option String :=
  match n with
  | .textNode _ => none
  | .element _ attrs _ => jsLookup attrs name

/-- Numeric value of a run of decimal digit characters. -/
def digitsToNat (ds : List Char) : Nat :=
  ds.foldl (fun acc c => acc * 10 + (c.toNat - 48)) 0

/-- The longest run of decimal digits at the head of the character list. -/
def leadingDigits (cs : List Char) : List Char :=
  cs.takeWhile (fun c => c.isDigit)

/-- The optionally signed digit run of a JS float exponent part; an absent
digit run contributes exponent 0, matching `parseFloat` leaving an
unconsumable exponent suffix aside. -/
def expValue (cs : List Char) : Int :=
  match cs with
  | '+' :: r => Int.ofNat (digitsToNat (leadingDigits r))
  | '-' :: r => -Int.ofNat (digitsToNat (leadingDigits r))
  | r => Int.ofNat (digitsToNat (leadingDigits r))

/-- The result of scanning the numeric prefix of a string, before assembling
its rational value: sign, the digits of the mantissa read as one integer, the
number of fractional digits, the exponent, and whether a numeral was found at
all (`ok = false` embeds NaN). -/
structure FloatScan where
  negative : Bool
  mantissaDigits : Nat
  fracLen : Nat
  exp : Int
  ok : Bool
  deriving Repr, DecidableEq

/-- The scanning phase of JS `parseFloat`: skip leading whitespace, read an
optional sign, an integer digit run and/or a fractional digit run (at least
one digit required, else NaN), then an optional `e`/`E` exponent. Trailing
non-numeric characters are ignored, as in JS; the non-finite literal
"Infinity" is outside this model. -/
def scanFloat (s : String) : FloatScan :=
  let cs0 := s.data.dropWhile (fun c => c.isWhitespace)
  let signAndRest :=
    match cs0 with
    | '+' :: r => (false, r)
    | '-' :: r => (true, r)
    | r => (false, r)
  let cs := signAndRest.2
  let intDigits := leadingDigits cs
  let rest1 := cs.drop intDigits.length
  let fracDigits :=
    match rest1 with
    | '.' :: r => leadingDigits r
    | _ => []
  let rest2 :=
    match rest1 with
    | '.' :: r => r.drop fracDigits.length
    | _ => rest1
  let e : Int :=
    match rest2 with
    | 'e' :: r => expValue r
    | 'E' :: r => expValue r
    | _ => 0
  { negative := signAndRest.1
    mantissaDigits := digitsToNat (intDigits ++ fracDigits)
    fracLen := fracDigits.length
    exp := e
    ok := !(intDigits.isEmpty && fracDigits.isEmpty) }

/-- The rational value of a scanned numeral: `none` embeds NaN. -/
def floatValue (f : FloatScan) : Option Rat :=
  if f.ok then
    let mantissa : Rat := (f.mantissaDigits : Rat) / ((10 : Rat) ^ f.fracLen)
    let signed : Rat := if f.negative then -mantissa else mantissa
    some (if 0 ≤ f.exp then signed * (10 : Rat) ^ f.exp.toNat
          else signed / (10 : Rat) ^ (-f.exp).toNat)
  else none

/-- JS `parseFloat` on a string: numbers are embedded as rationals, NaN as
`none`. -/
def jsParseFloat (s : String) : Option Rat :=
  floatValue (scanFloat s)

/-- One decoded cue. `start` and `duration` are `Option Rat`: `none` embeds
the NaN produced by `parseFloat` on an absent or non-numeric attribute. -/
structure TranscriptLine where
  text : String
  start : Option Rat
  duration : Option Rat
  deriving Repr, DecidableEq

/-- The allow-list of formatting tags in `getHtmlRegex`
(src/src/transcripts.js line 216). -/
def formattingTags : List String :=
  ["strong", "em", "b", "i", "mark", "small", "del", "ins", "sub", "sup"]

/-- The two regexes `getHtmlRegex` can build, as data: the allow-list variant
for `preserveFormatting = true`, the strip-everything variant otherwise. Its
matching semantics is irrelevant because the parser never applies it (see
`parseTranscript`). -/
inductive HtmlRegex where
  | allowListRegex (tags : List String)
  | allTagsRegex
  deriving Repr, DecidableEq

/-- `getHtmlRegex(preserveFormatting)` (src/src/transcripts.js lines
214-221). -/
def getHtmlRegex (preserveFormatting : Bool) : HtmlRegex :=
  if preserveFormatting then .allowListRegex formattingTags else .allTagsRegex

/-- `createTranscriptParser(preserveFormatting).parse` (src/src/transcripts.js
lines 201-222) on the parsed document: exactly as in the source, `htmlRegex`
is computed from `preserveFormatting` and then never used; each `<text>`
element (via `getElementsByTagName` on the document element) yields one cue
with `text = el.textContent`,
`start = parseFloat(el.getAttribute('start'))` (NaN when the attribute is
absent, since `parseFloat(null)` parses "null"), and
`duration = parseFloat(el.getAttribute('dur') || '0.0')` (the JS `||` falls
back on `null` and on the empty string). -/
def parseTranscript (preserveFormatting : Bool) (documentElement : XmlNode) :
    List TranscriptLine :=
  let _htmlRegex := getHtmlRegex preserveFormatting
  (getElementsByTagName documentElement "text").map (fun el =>
    { text := textContent el
      start :=
        match getAttribute el "start" with
        | some s => jsParseFloat s
        | none => none
      duration :=
        jsParseFloat
          (match getAttribute el "dur" with
           | some s => if s == "" then "0.0" else s
           | none => "0.0") })

/-- The loop body of `YouTubeTranscriptApi.getTranscripts` (src/src/api.js
lines 43-63), recursing over the remaining video ids with the `data` object
and `unretrievableVideos` array as accumulators. The per-video
`getTranscript` call (network I/O) is abstracted as the `fetchOne` oracle;
its `Except` result is all-or-nothing, as a thrown error carries no partial
transcript. -/
def getTranscriptsGo {α : Type} (fetchOne : String → Except TranscriptError α)
    (continueAfterError : Bool) :
    List String → List (String × α) → List String →
      Except TranscriptError (List (String × α) × List String)
  | [], data, unretrievableVideos => .ok (data, unretrievableVideos)
  | videoId :: rest, data, unretrievableVideos =>
    match fetchOne videoId with
    | .ok t => getTranscriptsGo fetchOne continueAfterError rest
        (assign data videoId t) unretrievableVideos
    | .error e =>
      if continueAfterError then
        getTranscriptsGo fetchOne continueAfterError rest data
          (unretrievableVideos ++ [videoId])
      else
        .error e

/-- `YouTubeTranscriptApi.getTranscripts`: process the video ids in input
order starting from empty accumulators, returning `{data,
unretrievableVideos}` on completion. -/
def getTranscripts {α : Type} (fetchOne : String → Except TranscriptError α)
    (continueAfterError : Bool) (videoIds : List String) :
    Except TranscriptError (List (String × α) × List String) :=
  getTranscriptsGo fetchOne continueAfterError videoIds [] []

deriving instance DecidableEq for Except

/-- A manifest carrying both a manually-created and an ASR track for the same
language code "en". -/
def cjDup : CaptionsJson :=
  { captionTracks := [
      { baseUrl := "u1", nameSimpleText := "English", languageCode := "en",
        kind := none, isTranslatable := false },
      { baseUrl := "u2", nameSimpleText := "English (auto)", languageCode := "en",
        kind := some "asr", isTranslatable := false }],
    translationLanguages := [] }

/-- The ASR handle `buildTranscriptList` creates for the second track of
`cjDup`. -/
def tEnAsr : Transcript :=
  createTranscript "vid" "u2" "English (auto)" "en" true []

/-- A handle whose translation list holds the code "de" with an empty display
name. -/
def hEmptyName : Transcript :=
  createTranscript "vid01234567" "http://u" "English" "en" false
    [{ language := "", language_code := "de" }]

/-- A handle whose translation list holds "de" twice: once with a proper
display name, once (last, so it wins in the dictionary) with an empty one. -/
def hDupName : Transcript :=
  createTranscript "vid55555555" "https://u5" "English" "en" false
    [{ language := "German", language_code := "de" },
     { language := "", language_code := "de" }]

/-- A manually-created English handle translatable to German. -/
def hGerman : Transcript :=
  createTranscript "vidc0000000" "https://base?x=1" "English" "en" false
    [{ language := "German", language_code := "de" }]

/-- A manifest with one manually-created English track and one ASR German
track. -/
def cjFind : CaptionsJson :=
  { captionTracks := [
      { baseUrl := "ue", nameSimpleText := "English", languageCode := "en",
        kind := none, isTranslatable := false },
      { baseUrl := "ud", nameSimpleText := "German (auto)", languageCode := "de",
        kind := some "asr", isTranslatable := false }],
    translationLanguages := [] }

/-- The catalog built from `cjFind`. -/
def tlFind : TranscriptList :=
  buildTranscriptList "vidfind0000" cjFind

/-- The generated German handle of `tlFind`. -/
def tDeAsr : Transcript :=
  createTranscript "vidfind0000" "ud" "German (auto)" "de" true []

/-- The catalog of a manifest with no caption tracks. -/
def emptyCatalog : TranscriptList :=
  buildTranscriptList "abc12345678" { captionTracks := [], translationLanguages := [] }

/-- The scenario-A subtitle document: one `<text>` element with
`start="1.0"`, `dur="2.5"` and body "Hello" under the document root. -/
def docHello : XmlNode :=
  .element "transcript" []
    [.element "text" [("start", "1.0"), ("dur", "2.5")] [.textNode "Hello"]]

/-- A two-cue document whose cues are not time-ascending and whose second cue
has no `dur` attribute. -/
def docOrder : XmlNode :=
  .element "transcript" []
    [.element "text" [("start", "3")] [.textNode "B"],
     .element "text" [("start", "1")] [.textNode "A"]]

/-- A document whose single cue wraps its body in the allow-listed formatting
tag `<b>`. -/
def docBold : XmlNode :=
  .element "transcript" []
    [.element "text" [("start", "0")] [.element "b" [] [.textNode "Hi"]]]

/-- A per-video fetch stub failing exactly on the id "bad". -/
def fetchStub : String → Except TranscriptError Nat :=
  fun videoId => if videoId == "bad" then .error (.videoUnavailable "bad") else .ok 0

/-- C2: when the captions-marker split of the page yields no second segment,
`extractCaptionsJson` classifies the failure with this exact precedence:
`InvalidVideoId` when the supplied video id starts with a URL prefix, else
`TooManyRequests` when the page contains the CAPTCHA marker, else
`VideoUnavailable` when the page lacks the playability marker, else
`TranscriptsDisabled`; in particular a non-URL id with a page that carries
the CAPTCHA marker — whether or not the playability marker is missing as
well — yields `TooManyRequests`, never `VideoUnavailable`. -/
theorem extractCaptionsJson_classification (html videoId : String)
    (h : splitFirst captionsMarker.data html.data = none) :
    extractCaptionsJson html videoId = .error
      (if jsStartsWith videoId "http://" || jsStartsWith videoId "https://" then
        .invalidVideoId videoId
      else if includes html captchaMarker then .tooManyRequests videoId
      else if !(includes html playabilityMarker) then .videoUnavailable videoId
      else .transcriptsDisabled videoId) ∧
    ((jsStartsWith videoId "http://" || jsStartsWith videoId "https://") = false →
      includes html captchaMarker = true →
      extractCaptionsJson html videoId = .error (.tooManyRequests videoId)) := by
  have hmain : extractCaptionsJson html videoId = .error
      (if jsStartsWith videoId "http://" || jsStartsWith videoId "https://" then
        .invalidVideoId videoId
      else if includes html captchaMarker then .tooManyRequests videoId
      else if !(includes html playabilityMarker) then .videoUnavailable videoId
      else .transcriptsDisabled videoId) := by
    unfold extractCaptionsJson
    rw [h]
    by_cases h1 : (jsStartsWith videoId "http://" || jsStartsWith videoId "https://") = true
    · simp [h1]
    · rw [Bool.not_eq_true] at h1
      by_cases h2 : includes html captchaMarker = true
      · simp [h1, h2]
      · rw [Bool.not_eq_true] at h2
        by_cases h3 : includes html playabilityMarker = true
        · simp [h1, h2, h3]
        · rw [Bool.not_eq_true] at h3
          simp [h1, h2, h3]
  refine ⟨hmain, fun h1 h2 => ?_⟩
  rw [hmain, h1, h2]
  simp

/-- Witness for C2 at a concrete CAPTCHA page that also lacks the
playability marker. -/
theorem extractCaptionsJson_classification_witness :
    extractCaptionsJson "<html>class=\"g-recaptcha\"</html>" "abc12345678" =
      .error (.tooManyRequests "abc12345678") :=
  (extractCaptionsJson_classification "<html>class=\"g-recaptcha\"</html>" "abc12345678"
      (by decide)).2 (by decide) (by decide)

/-- The inner loop over the two candidate dictionaries of `findTranscript`:
the manually-created dictionary is consulted before the generated one. -/
theorem findInDicts_pair (m g : List (String × Transcript)) (code : String) :
    findInDicts [m, g] code =
      match jsLookup m code with
      | some t => some t
      | none => jsLookup g code := by
  cases hm : jsLookup m code with
  | some t => simp [findInDicts, hm]
  | none =>
    cases hg : jsLookup g code with
    | some t => simp [findInDicts, hm, hg]
    | none => simp [findInDicts, hm, hg]

/-- The outer loop returns the hit of the first preference-list code that has
one, skipping codes with no hit in any candidate dictionary. -/
theorem findFirstMatch_eq_some (transcriptDicts : List (List (String × Transcript)))
    (pre : List String) (code : String) (post : List String) (t : Transcript)
    (hpre : ∀ c ∈ pre, findInDicts transcriptDicts c = none)
    (hcode : findInDicts transcriptDicts code = some t) :
    findFirstMatch (pre ++ code :: post) transcriptDicts = some t := by
  induction pre with
  | nil => simp [findFirstMatch, hcode]
  | cons c cs ih =>
    have hc := hpre c (by simp)
    simp only [List.cons_append, findFirstMatch, hc]
    exact ih (fun c2 hc2 => hpre c2 (by simp [hc2]))

/-- The outer loop finds a hit whenever some preference-list code has one. -/
theorem findFirstMatch_isSome (transcriptDicts : List (List (String × Transcript)))
    (languageCodes : List String)
    (h : ∃ c ∈ languageCodes, findInDicts transcriptDicts c ≠ none) :
    ∃ t, findFirstMatch languageCodes transcriptDicts = some t := by
  induction languageCodes with
  | nil => simp at h
  | cons c cs ih =>
    cases hc : findInDicts transcriptDicts c with
    | some t => exact ⟨t, by simp [findFirstMatch, hc]⟩
    | none =>
      obtain ⟨c2, hc2, hne⟩ := h
      rcases List.mem_cons.mp hc2 with rfl | hmem
      · exact absurd hc hne
      · obtain ⟨t, ht⟩ := ih ⟨c2, hmem, hne⟩
        exact ⟨t, by simp [findFirstMatch, hc, ht]⟩

/-- C3: `findTranscript` resolves by language preference first and by origin
only as a tiebreak: it returns the handle of the first code of the preference
list present in either map — from the manually-created map when that code is
there, else from the generated map — and whenever at least one requested code
is present in either map it succeeds (never `NoTranscriptFound`). -/
theorem findTranscript_language_preference (transcriptList : TranscriptList) :
    (∀ pre code post t,
      (∀ c ∈ pre, jsLookup transcriptList.manuallyCreatedTranscripts c = none ∧
        jsLookup transcriptList.generatedTranscripts c = none) →
      (jsLookup transcriptList.manuallyCreatedTranscripts code = some t ∨
        (jsLookup transcriptList.manuallyCreatedTranscripts code = none ∧
          jsLookup transcriptList.generatedTranscripts code = some t)) →
      findTranscript transcriptList (pre ++ code :: post) = .ok t) ∧
    (∀ languageCodes,
      (∃ c ∈ languageCodes,
        (jsLookup transcriptList.manuallyCreatedTranscripts c).isSome = true ∨
        (jsLookup transcriptList.generatedTranscripts c).isSome = true) →
      ∃ t, findTranscript transcriptList languageCodes = .ok t) := by
  constructor
  · intro pre code post t hpre hcode
    have hpre2 : ∀ c ∈ pre, findInDicts [transcriptList.manuallyCreatedTranscripts,
        transcriptList.generatedTranscripts] c = none := by
      intro c hc
      rw [findInDicts_pair]
      rw [(hpre c hc).1, (hpre c hc).2]
    have hcode2 : findInDicts [transcriptList.manuallyCreatedTranscripts,
        transcriptList.generatedTranscripts] code = some t := by
      rw [findInDicts_pair]
      rcases hcode with hm | ⟨hm, hg⟩
      · rw [hm]
      · rw [hm, hg]
    unfold findTranscript findTranscriptHelper
    rw [findFirstMatch_eq_some _ pre code post t hpre2 hcode2]
  · intro languageCodes hex
    obtain ⟨c, hc, hsome⟩ := hex
    have hne : findInDicts [transcriptList.manuallyCreatedTranscripts,
        transcriptList.generatedTranscripts] c ≠ none := by
      rw [findInDicts_pair]
      cases hm : jsLookup transcriptList.manuallyCreatedTranscripts c with
      | some t => simp
      | none =>
        rcases hsome with hs | hs
        · rw [hm] at hs
          simp at hs
        · simpa [Option.isSome_iff_ne_none] using hs
    obtain ⟨t, ht⟩ := findFirstMatch_isSome _ languageCodes ⟨c, hc, hne⟩
    refine ⟨t, ?_⟩
    unfold findTranscript findTranscriptHelper
    rw [ht]

/-- Witness for C3: in a catalog with a manual "en" track and a generated
"de" track, the preference list ["fr", "de"] resolves to the generated German
handle (the first present code wins). -/
theorem findTranscript_language_preference_witness :
    findTranscript tlFind ["fr", "de"] = .ok tDeAsr :=
  (findTranscript_language_preference tlFind).1 ["fr"] "de" [] tDeAsr
    (by decide) (by decide)

/-- C4 counterexample: a handle whose non-empty translation list contains the
target code "de" — so by the claim `translate` should not fail with
`TranslationLanguageNotAvailable` — yet it does, because the entry's display
name is the empty string and the source's JS truthiness test
`!this.translationLanguagesDict[languageCode]` treats an empty-string value
like an absent key. -/
theorem translate_TLNA_counterexample :
    hEmptyName.translationLanguages.map TranslationLanguage.language_code = ["de"] ∧
    hEmptyName.translationLanguages ≠ [] ∧
    hEmptyName.translate "de" = .error (.translationLanguageNotAvailable "vid01234567") := by
  refine ⟨by decide, by decide, by decide⟩

/-- C4 (amended): `translate` fails with `NotTranslatable` exactly when the
handle's translation-language list is empty, regardless of the requested
target; it fails with `TranslationLanguageNotAvailable` exactly when the list
is non-empty but the handle's translation dictionary holds no non-empty
display name for the target code (JS truthiness: the key is absent, or its
value is the empty string — for handles whose display names are all
non-empty this coincides with the target code being absent from the list);
and it succeeds in every remaining case. -/
theorem translate_error_characterization (t : Transcript) (target : String) :
    (t.translate target = .error (.notTranslatable t.videoId) ↔
      t.translationLanguages = []) ∧
    (t.translate target = .error (.translationLanguageNotAvailable t.videoId) ↔
      (t.translationLanguages ≠ [] ∧
        truthyLookup t.translationLanguagesDict target = false)) ∧
    ((∃ u, t.translate target = .ok u) ↔
      (t.translationLanguages ≠ [] ∧
        truthyLookup t.translationLanguagesDict target = true)) := by
  unfold Transcript.translate
  cases htl : t.translationLanguages with
  | nil => simp [Transcript.isTranslatable, htl]
  | cons a as =>
    have hne : t.isTranslatable = true := by
      simp [Transcript.isTranslatable, htl]
    cases htr : truthyLookup t.translationLanguagesDict target <;>
      simp [hne, htr, htl]

/-- Witness for C4 (amended): an untranslatable handle fails with
`NotTranslatable` even for a target it could never carry. -/
theorem translate_error_characterization_witness :
    tDeAsr.translate "en" = .error (.notTranslatable "vidfind0000") :=
  (translate_error_characterization tDeAsr "en").1.mpr (by decide)

/-- C5 counterexample: a translatable handle whose translation list contains
the target "de" with the proper display name "German" — so by the claim
`translate` must return a derived handle — yet it fails with
`TranslationLanguageNotAvailable`: a later duplicate entry for "de" with an
empty display name wins in the dictionary (last-write-wins), and the empty
string is falsy in the source's availability test. -/
theorem translate_derivation_counterexample :
    hDupName.isTranslatable = true ∧
    hDupName.translationLanguages.map TranslationLanguage.language_code = ["de", "de"] ∧
    ({ language := "German", language_code := "de" } : TranslationLanguage) ∈
      hDupName.translationLanguages ∧
    hDupName.translate "de" = .error (.translationLanguageNotAvailable "vid55555555") := by
  refine ⟨by decide, by decide, by decide, by decide⟩

/-- C5 (amended): for every handle with a non-empty translation list whose
dictionary maps the target code to a non-empty display name, `translate`
derives a fresh handle (the source record is a pure input and stays usable):
same videoId, the source url with the `&tlang=<target>` query parameter
appended, the display name taken from the translation dictionary, the
language code set to the target, the generated flag forced to `true` (even
when the source handle is manually created), and an empty translation list —
so the derived handle is itself not translatable. -/
theorem translate_success_fields (t : Transcript) (target name : String)
    (hlist : t.translationLanguages ≠ [])
    (hname : jsLookup t.translationLanguagesDict target = some name)
    (hne : name ≠ "") :
    t.translate target = .ok
      { videoId := t.videoId
        url := t.url ++ "&tlang=" ++ target
        language := name
        languageCode := target
        isGenerated := true
        translationLanguages := []
        translationLanguagesDict := [] } ∧
    ∀ u, t.translate target = .ok u → u.isTranslatable = false := by
  have htr : t.isTranslatable = true := by
    cases htl : t.translationLanguages with
    | nil => exact absurd htl hlist
    | cons a as => simp [Transcript.isTranslatable, htl]
  have htruthy : truthyLookup t.translationLanguagesDict target = true := by
    simp [truthyLookup, hname, hne]
  constructor
  · unfold Transcript.translate
    rw [htr, htruthy]
    simp [createTranscript, buildTranslationLanguagesDict, hname]
  · intro u hu
    unfold Transcript.translate at hu
    rw [htr, htruthy] at hu
    simp [createTranscript, buildTranslationLanguagesDict] at hu
    rw [← hu]
    simp [Transcript.isTranslatable]

/-- Witness for C5: the manually-created English handle translatable to
German derives the expected German handle, generated and untranslatable. -/
theorem translate_success_fields_witness :
    hGerman.translate "de" = .ok
      { videoId := "vidc0000000"
        url := "https://base?x=1&tlang=de"
        language := "German"
        languageCode := "de"
        isGenerated := true
        translationLanguages := []
        translationLanguagesDict := [] } := by
  have h := (translate_success_fields hGerman "de" "German"
    (by decide) (by decide) (by decide)).1
  rw [h]
  decide

/-- C6: the cue decoder produces one TranscriptLine per `<text>` element of
the document, in document order (no sorting, no deduplication), with `start`
the `start` attribute parsed as a float, `duration` the `dur` attribute
parsed as a float defaulting to 0.0 when absent, and `text` the element's
text content; in particular the scenario-A body
`<text start="1.0" dur="2.5">Hello</text>` decodes to the single line
(start 1.0, duration 2.5, text "Hello"), and a two-cue document keeps its
(non-time-ascending) document order with the missing `dur` defaulted to 0. -/
theorem parseTranscript_lines (preserveFormatting : Bool) (doc : XmlNode) :
    (∀ i : Nat, (parseTranscript preserveFormatting doc)[i]? =
      ((getElementsByTagName doc "text")[i]?).map (fun el =>
        { text := textContent el
          start :=
            match getAttribute el "start" with
            | some s => jsParseFloat s
            | none => none
          duration :=
            jsParseFloat
              (match getAttribute el "dur" with
               | some s => if s == "" then "0.0" else s
               | none => "0.0") })) ∧
    parseTranscript preserveFormatting docHello =
      [{ text := "Hello", start := some 1, duration := some ((5 : Rat) / 2) }] ∧
    parseTranscript preserveFormatting docOrder =
      [{ text := "B", start := some 3, duration := some 0 },
       { text := "A", start := some 1, duration := some 0 }] := by
  refine ⟨fun i => ?_, ?_, ?_⟩
  · unfold parseTranscript
    rw [List.getElem?_map]
  · have h1 : scanFloat "1.0" =
        { negative := false, mantissaDigits := 10, fracLen := 1, exp := 0, ok := true } := by
      decide
    have h2 : scanFloat "2.5" =
        { negative := false, mantissaDigits := 25, fracLen := 1, exp := 0, ok := true } := by
      decide
    simp [parseTranscript, docHello, getElementsByTagName, collectElements, getAttribute,
      jsLookup, textContent, jsParseFloat, h1, h2, floatValue, String.join]
    norm_num
  · have h1 : scanFloat "3" =
        { negative := false, mantissaDigits := 3, fracLen := 0, exp := 0, ok := true } := by
      decide
    have h2 : scanFloat "1" =
        { negative := false, mantissaDigits := 1, fracLen := 0, exp := 0, ok := true } := by
      decide
    have h3 : scanFloat "0.0" =
        { negative := false, mantissaDigits := 0, fracLen := 1, exp := 0, ok := true } := by
      decide
    simp [parseTranscript, docOrder, getElementsByTagName, collectElements, getAttribute,
      jsLookup, textContent, jsParseFloat, h1, h2, h3, floatValue, String.join]

/-- Witness for C6: the scenario-A decoding, instantiated with formatting
preservation off. -/
theorem parseTranscript_lines_witness :
    parseTranscript false docHello =
      [{ text := "Hello", start := some 1, duration := some ((5 : Rat) / 2) }] :=
  (parseTranscript_lines false docHello).2.1

/-- C1: code-bug evidence. The source computes the allow-list regex from
`preserveFormatting` (`getHtmlRegex`) but `parse` never applies it, and cue
text is taken from the DOM `textContent`, which drops every tag; so even with
`preserveFormatting = true` an allow-listed `<b>` wrapper is stripped (the
cue text is "Hi", not the claimed intact "<b>Hi</b>") — the flag has no
effect on the output at all. -/
theorem parseTranscript_strips_allowlisted_tags :
    formattingTags.contains "b" = true ∧
    (parseTranscript true docBold).map TranscriptLine.text = ["Hi"] ∧
    (parseTranscript false docBold).map TranscriptLine.text = ["Hi"] ∧
    (∀ (preserveFormatting : Bool) (doc : XmlNode),
      parseTranscript preserveFormatting doc = parseTranscript true doc) := by
  refine ⟨by decide, ?_, ?_, fun preserveFormatting doc => rfl⟩ <;>
    simp [parseTranscript, docBold, getElementsByTagName, collectElements, getAttribute,
      jsLookup, textContent, String.join]

/-- JS property assignment does not change the key set when the key is
already present, and appends the (fresh) key otherwise; either way it
preserves distinctness of the keys. -/
theorem keys_nodup_assign {α : Type} (m : List (String × α)) (k : String) (v : α)
    (h : (m.map Prod.fst).Nodup) : ((assign m k v).map Prod.fst).Nodup := by
  unfold assign
  by_cases hk : m.any (fun p => p.1 == k) = true
  · rw [if_pos hk]
    have hsame : (m.map (fun p => if p.1 == k then (k, v) else p)).map Prod.fst =
        m.map Prod.fst := by
      rw [List.map_map]
      apply List.map_congr_left
      intro p _
      by_cases hpk : p.1 = k
      · simp [hpk]
      · simp [hpk]
    rw [hsame]
    exact h
  · rw [if_neg hk]
    have hnotin : k ∉ m.map Prod.fst := by
      intro hmem
      obtain ⟨p, hp, hpk⟩ := List.mem_map.mp hmem
      exact hk (List.any_eq_true.mpr ⟨p, hp, by simp [hpk]⟩)
    simp only [List.map_append, List.map_cons, List.map_nil]
    rw [List.nodup_append]
    exact ⟨h, List.nodup_singleton k, by simpa using hnotin⟩

/-- The catalog-building fold keeps the keys of both dictionaries
distinct. -/
theorem buildMaps_keys_nodup (videoId : String) (tls : List TranslationLanguage)
    (tracks : List CaptionTrack)
    (maps0 : List (String × Transcript) × List (String × Transcript))
    (h1 : (maps0.1.map Prod.fst).Nodup) (h2 : (maps0.2.map Prod.fst).Nodup) :
    (((tracks.foldl (addCaptionTrack videoId tls) maps0).1.map Prod.fst).Nodup) ∧
    (((tracks.foldl (addCaptionTrack videoId tls) maps0).2.map Prod.fst).Nodup) := by
  induction tracks generalizing maps0 with
  | nil => exact ⟨h1, h2⟩
  | cons tr rest ih =>
    rw [List.foldl_cons]
    apply ih
    · by_cases hasr : (tr.kind == some "asr") = true
      · simpa [addCaptionTrack, hasr] using h1
      · simp only [addCaptionTrack, hasr]
        simp only [Bool.false_eq_true, if_false]
        exact keys_nodup_assign _ _ _ h1
    · by_cases hasr : (tr.kind == some "asr") = true
      · simp only [addCaptionTrack, hasr, if_true]
        exact keys_nodup_assign _ _ _ h2
      · simpa [addCaptionTrack, hasr] using h2

/-- C7 counterexample: the manifest `cjDup` carries a manually-created and an
ASR track that share the language code "en"; the built catalog then holds
"en" in both maps at once, refuting the claimed at-most-one-map property. -/
theorem buildTranscriptList_disjointness_counterexample :
    (jsLookup (buildTranscriptList "vid" cjDup).manuallyCreatedTranscripts "en").isSome
      = true ∧
    (jsLookup (buildTranscriptList "vid" cjDup).generatedTranscripts "en").isSome
      = true := by
  refine ⟨by decide, by decide⟩

/-- C7 (amended): in every built catalog the keys are unique within each of
the two maps (assignment under an existing language code overwrites,
last-write-wins); disjointness between the two maps, however, does not hold
in general — a code appears in both maps whenever the manifest carries both a
manual and an ASR track for it. -/
theorem buildTranscriptList_keys_unique (videoId : String) (captionsJson : CaptionsJson) :
    (((buildTranscriptList videoId captionsJson).manuallyCreatedTranscripts.map
      Prod.fst).Nodup) ∧
    (((buildTranscriptList videoId captionsJson).generatedTranscripts.map
      Prod.fst).Nodup) := by
  unfold buildTranscriptList
  exact buildMaps_keys_nodup videoId _ captionsJson.captionTracks ([], [])
    (by simp) (by simp)

/-- Witness for C7 (amended) at the duplicate-code manifest. -/
theorem buildTranscriptList_keys_unique_witness :
    (((buildTranscriptList "vid" cjDup).manuallyCreatedTranscripts.map
      Prod.fst).Nodup) ∧
    (((buildTranscriptList "vid" cjDup).generatedTranscripts.map Prod.fst).Nodup) :=
  buildTranscriptList_keys_unique "vid" cjDup

/-- JS property assignment preserves a property of the stored values as long
as the newly stored value satisfies it. -/
theorem values_assign {α : Type} (P : α → Prop) (m : List (String × α)) (k : String)
    (v : α) (hm : ∀ p ∈ m, P p.2) (hv : P v) : ∀ p ∈ assign m k v, P p.2 := by
  unfold assign
  by_cases hk : m.any (fun p => p.1 == k) = true
  · rw [if_pos hk]
    intro p hp
    obtain ⟨q, hq, hpq⟩ := List.mem_map.mp hp
    by_cases hqk : (q.1 == k) = true
    · rw [if_pos hqk] at hpq
      rw [← hpq]
      exact hv
    · rw [if_neg hqk] at hpq
      rw [← hpq]
      exact hm q hq
  · rw [if_neg hk]
    intro p hp
    rcases List.mem_append.mp hp with hin | hnew
    · exact hm p hin
    · rw [List.mem_singleton.mp hnew]
      exact hv

/-- The catalog-building fold routes every track into the dictionary matching
its kind-equals-asr test, and stamps the same test onto the handle's
generated flag. -/
theorem buildMaps_generated_flag (videoId : String) (tls : List TranslationLanguage)
    (tracks : List CaptionTrack)
    (maps0 : List (String × Transcript) × List (String × Transcript))
    (h1 : ∀ p ∈ maps0.1, p.2.isGenerated = false)
    (h2 : ∀ p ∈ maps0.2, p.2.isGenerated = true) :
    (∀ p ∈ (tracks.foldl (addCaptionTrack videoId tls) maps0).1,
      p.2.isGenerated = false) ∧
    (∀ p ∈ (tracks.foldl (addCaptionTrack videoId tls) maps0).2,
      p.2.isGenerated = true) := by
  induction tracks generalizing maps0 with
  | nil => exact ⟨h1, h2⟩
  | cons tr rest ih =>
    rw [List.foldl_cons]
    apply ih
    · cases hasr : (tr.kind == some "asr") with
      | false =>
        simp only [addCaptionTrack, hasr, Bool.false_eq_true, if_false]
        exact values_assign (fun (u : Transcript) => u.isGenerated = false) _ _ _ h1
          (by simp [createTranscript, hasr])
      | true => simpa [addCaptionTrack, hasr] using h1
    · cases hasr : (tr.kind == some "asr") with
      | false => simpa [addCaptionTrack, hasr] using h2
      | true =>
        simp only [addCaptionTrack, hasr, if_true]
        exact values_assign (fun (u : Transcript) => u.isGenerated = true) _ _ _ h2
          (by simp [createTranscript, hasr])

/-- C10: catalog membership agrees with the handle's generated flag — every
handle stored in the generated map has `isGenerated = true` and every handle
stored in the manually-created map has `isGenerated = false`, both flags
being derived from the same kind-equals-asr test on the caption track. -/
theorem buildTranscriptList_generated_flag (videoId : String)
    (captionsJson : CaptionsJson) :
    (∀ p ∈ (buildTranscriptList videoId captionsJson).generatedTranscripts,
      p.2.isGenerated = true) ∧
    (∀ p ∈ (buildTranscriptList videoId captionsJson).manuallyCreatedTranscripts,
      p.2.isGenerated = false) := by
  unfold buildTranscriptList
  exact (buildMaps_generated_flag videoId _ captionsJson.captionTracks ([], [])
    (by simp) (by simp)).symm

/-- Witness for C10: the ASR "en" entry of the `cjDup` catalog carries
`isGenerated = true`. -/
theorem buildTranscriptList_generated_flag_witness :
    tEnAsr.isGenerated = true :=
  (buildTranscriptList_generated_flag "vid" cjDup).1 ("en", tEnAsr) (by decide)

/-- C8: code-bug evidence. On an unmatched request the resolver's
`NoTranscriptFound` error does carry the requested language-code list, but
the call site `throw new noTranscriptFound(videoId, languageCodes)` passes no
third argument, so the factory's `transcriptData` parameter — the slot meant
for the human-readable catalog dump — is `undefined`, and the diagnostic
cause ends with the literal text "undefined" instead of the dump of
available languages. -/
theorem noTranscriptFound_missing_catalog_dump :
    findTranscript emptyCatalog ["en"] =
      .error (.noTranscriptFound "abc12345678" ["en"] none) ∧
    causeOf (.noTranscriptFound "abc12345678" ["en"] none) =
      "No transcripts were found for any of the requested language codes: en\n\nundefined" := by
  refine ⟨by decide, by decide⟩

/-- JS property assignment under a fresh key appends the pair. -/
theorem assign_of_fresh_key {α : Type} (m : List (String × α)) (k : String) (v : α)
    (h : ∀ p ∈ m, p.1 ≠ k) : assign m k v = m ++ [(k, v)] := by
  unfold assign
  rw [if_neg]
  intro hany
  obtain ⟨p, hp, hpk⟩ := List.any_eq_true.mp hany
  exact h p hp (beq_iff_eq.mp hpk)

/-- The batch loop with `continueAfterError = false` propagates the error of
the first failing video id, whatever came before. -/
theorem getTranscriptsGo_abort {α : Type} (fetchOne : String → Except TranscriptError α)
    (pre : List String) (bad : String) (post : List String) (e : TranscriptError)
    (data : List (String × α)) (unret : List String)
    (hpre : ∀ v ∈ pre, ∃ t, fetchOne v = .ok t) (hbad : fetchOne bad = .error e) :
    getTranscriptsGo fetchOne false (pre ++ bad :: post) data unret = .error e := by
  induction pre generalizing data with
  | nil => simp [getTranscriptsGo, hbad]
  | cons v vs ih =>
    obtain ⟨t, ht⟩ := hpre v (by simp)
    rw [List.cons_append]
    simp only [getTranscriptsGo, ht]
    exact ih _ (fun v2 h2 => hpre v2 (by simp [h2]))

/-- The batch loop with `continueAfterError = true` appends, for every
remaining id in input order, the fetched transcript to the data object on
success and the id to the unretrievable list on failure — provided the ids
are distinct and fresh for the data accumulated so far. -/
theorem getTranscriptsGo_continue {α : Type} (fetchOne : String → Except TranscriptError α)
    (l : List String) (data : List (String × α)) (unret : List String)
    (hdisj : ∀ v ∈ l, ∀ p ∈ data, p.1 ≠ v) (hnd : l.Nodup) :
    getTranscriptsGo fetchOne true l data unret =
      .ok (data ++ l.filterMap (fun v =>
             match fetchOne v with
             | .ok t => some (v, t)
             | .error _ => none),
           unret ++ l.filter (fun v =>
             match fetchOne v with
             | .ok _ => false
             | .error _ => true)) := by
  induction l generalizing data unret with
  | nil => simp [getTranscriptsGo]
  | cons v vs ih =>
    have hvnotin : v ∉ vs := (List.nodup_cons.mp hnd).1
    have hndvs : vs.Nodup := (List.nodup_cons.mp hnd).2
    cases hf : fetchOne v with
    | ok t =>
      simp only [getTranscriptsGo, hf]
      have hfresh : ∀ p ∈ data, p.1 ≠ v := fun p hp => hdisj v (by simp) p hp
      rw [assign_of_fresh_key data v t hfresh]
      rw [ih (data ++ [(v, t)]) unret ?hdisj2 hndvs]
      · simp only [List.filterMap_cons, List.filter_cons, hf]
        simp [List.append_assoc]
      case hdisj2 =>
        intro v2 hv2 p hp
        rcases List.mem_append.mp hp with hin | hnew
        · exact hdisj v2 (by simp [hv2]) p hin
        · rw [List.mem_singleton.mp hnew]
          intro hcontra
          exact hvnotin (show v ∈ vs by rw [show v = v2 from hcontra]; exact hv2)
    | error e =>
      simp only [getTranscriptsGo, hf, if_true]
      rw [ih data (unret ++ [v]) (fun v2 hv2 p hp => hdisj v2 (by simp [hv2]) p hp) hndvs]
      simp only [List.filterMap_cons, List.filter_cons, hf]
      simp [List.append_assoc]

/-- C9: batch semantics of `getTranscripts` over the ids in input order.
With `continueAfterError = false`, the first failing video id aborts the
whole batch by propagating its error. With `continueAfterError = true` (ids
assumed distinct, as JS object keys make repeated ids collapse anyway), every
failing id is recorded in `unretrievableVideos`, processing continues, and
the result pairs the data map — exactly the successfully fetched videos with
their complete transcripts, failures contributing nothing — with the explicit
list of unretrievable ids. -/
theorem getTranscripts_batch_policy {α : Type}
    (fetchOne : String → Except TranscriptError α) (videoIds : List String) :
    (∀ pre bad post e, videoIds = pre ++ bad :: post →
      (∀ v ∈ pre, ∃ t, fetchOne v = .ok t) → fetchOne bad = .error e →
      getTranscripts fetchOne false videoIds = .error e) ∧
    (videoIds.Nodup →
      getTranscripts fetchOne true videoIds =
        .ok (videoIds.filterMap (fun v =>
               match fetchOne v with
               | .ok t => some (v, t)
               | .error _ => none),
             videoIds.filter (fun v =>
               match fetchOne v with
               | .ok _ => false
               | .error _ => true))) := by
  constructor
  · intro pre bad post e hsplit hpre hbad
    rw [hsplit]
    exact getTranscriptsGo_abort fetchOne pre bad post e [] [] hpre hbad
  · intro hnd
    unfold getTranscripts
    rw [getTranscriptsGo_continue fetchOne videoIds [] [] (by simp) hnd]
    simp

/-- Witness for C9: with the stub failing exactly on "bad", the batch
["ok1", "bad", "ok2"] aborts with its error when the flag is off and returns
the two successes plus ["bad"] when it is on. -/
theorem getTranscripts_batch_policy_witness :
    getTranscripts fetchStub false ["ok1", "bad", "ok2"] =
      .error (.videoUnavailable "bad") ∧
    getTranscripts fetchStub true ["ok1", "bad", "ok2"] =
      .ok ([("ok1", 0), ("ok2", 0)], ["bad"]) := by
  have h := getTranscripts_batch_policy fetchStub ["ok1", "bad", "ok2"]
  refine ⟨h.1 ["ok1"] "bad" ["ok2"] (.videoUnavailable "bad") rfl ?_ (by decide), ?_⟩
  · intro v hv
    rw [List.mem_singleton.mp hv]
    exact ⟨0, rfl⟩
  · rw [h.2 (by decide)]
    decide

end YtScript
